import Mathlib

/-!
Verification of the Question-to-Insight pipeline of the Horus repository.

This file is a shallow embedding, in Lean 4, of the decision logic of the
backend services under `src/backend/app/services/`:

* `adaptive_query_engine.py` — `_sanitize_sql` (the SQL guard),
  `_generate_adaptive_sql` (generation + fallback), `_execute_query_safely`
  (textual LIMIT appending), `process_natural_language_query` (top level).
* `enhanced_llm_service.py` — `_analyze_question_intent`,
  `_extract_business_entities`, `_generate_fallback_sql`,
  `_clean_and_validate_sql`, `_apply_business_enhancements`,
  `_generate_business_sql`.
* `enhanced_query_processor.py` — `process_query_with_updates` (progress
  events and the shape of the returned object), `_execute_sql_query`
  (value conversion before JSON serialization).
* `query_engine.py` — `execute_query` (result normalization).
* `visualization_engine.py` — `_analyze_data_characteristics`,
  `_select_chart_type`.

Modelling conventions: Python strings are Lean `String`s (the texts in play
are ASCII, so `Char.toUpper`/`Char.toLower` agree with `str.upper`/`str.lower`);
Python floats are modelled as exact fractions (`PyFloat`): every float in play
is a small ratio of tiny integers, on which Python float comparison is exact
and agrees with rational comparison; calls to external collaborators (the LLM
and the database) are passed in
as explicit arguments (`Option`/`Except`/functions), and a Python `raise`
inside a `try` block is modelled by the corresponding `Except.error` /
fallback branch, exactly as the surrounding handler treats it.
-/

/-! ### Python string primitives -/

/-- Python whitespace for `str.strip` and the regex class `\s`
(" \t\n\r\x0b\x0c"). -/
def isPyWs (c : Char) : Bool :=
  c = ' ' || c = '\t' || c = '\n' || c = '\r' || c = '\x0b' || c = '\x0c'

/-- Python `str.strip()` (no arguments): trim whitespace on both sides. -/
def pyStrip (s : String) : String :=
  String.mk (((s.data.dropWhile isPyWs).reverse.dropWhile isPyWs).reverse)

/-- Python `str.rstrip(';')`: drop trailing semicolons only. -/
def rstripSemi (s : String) : String :=
  String.mk ((s.data.reverse.dropWhile (fun c => c = ';')).reverse)

/-- Python `str.rstrip()`: drop trailing whitespace. -/
def pyRstrip (s : String) : String :=
  String.mk ((s.data.reverse.dropWhile isPyWs).reverse)

/-- Python `str.upper()` on ASCII text. -/
def pyUpper (s : String) : String := String.mk (s.data.map Char.toUpper)

/-- Python `str.lower()` on ASCII text. -/
def pyLower (s : String) : String := String.mk (s.data.map Char.toLower)

/-- Splitting worker for `pySplit`; `fuel` bounds the recursion (each step
consumes at least one character, so the input length is enough). -/
def splitOnAuxF (sep : List Char) : Nat → List Char → List Char → List (List Char)
  | 0, acc, l => [acc.reverse ++ l]
  | _ + 1, acc, [] => [acc.reverse]
  | fuel + 1, acc, c :: t =>
    if !sep.isEmpty && sep.isPrefixOf (c :: t) then
      acc.reverse :: splitOnAuxF sep fuel [] ((c :: t).drop sep.length)
    else
      splitOnAuxF sep fuel (c :: acc) t

/-- Python `s.split(sep)` for a non-empty separator: leftmost,
non-overlapping cuts. -/
def pySplit (s sep : String) : List String :=
  (splitOnAuxF sep.data s.data.length [] s.data).map String.mk

/-- Python `sep.join(parts)`. -/
def pyJoin (sep : String) : List String → String
  | [] => ""
  | [x] => x
  | x :: xs => x ++ sep ++ pyJoin sep xs

/-- Substring test on character lists (Python `pat in hay`). -/
def hasSub : List Char → List Char → Bool
  | [], pat => pat.isEmpty
  | c :: t, pat => pat.isPrefixOf (c :: t) || hasSub t pat

/-- Python `pat in hay` on strings (case sensitive). -/
def strHas (hay pat : String) : Bool := hasSub hay.data pat.data

/-- Python `hay.startswith(pat)`. -/
def strStarts (hay pat : String) : Bool := pat.data.isPrefixOf hay.data

/-- Does the (lower-cased) text contain any of the keywords?  This is the
ubiquitous `any(word in question_lower for word in [...])` idiom. -/
def kwAny (ql : String) (kws : List String) : Bool := kws.any (fun w => strHas ql w)

/-- A Python float, modelled as an exact (not necessarily reduced) fraction
`num / den` with `den > 0` at every use site.  Comparisons cross-multiply, so
they are kernel-computable and exact. -/
structure PyFloat where
  num : Int
  den : Nat
deriving DecidableEq, Repr

/-- Exact `a < b` on fractions with positive denominators. -/
def PyFloat.blt (a b : PyFloat) : Bool := a.num * (b.den : Int) < b.num * (a.den : Int)

/-- Exact `a <= b` on fractions with positive denominators. -/
def PyFloat.ble (a b : PyFloat) : Bool := a.num * (b.den : Int) ≤ b.num * (a.den : Int)

/-- Python `min(a, b)`: the first argument when they are equal. -/
def pyMin (a b : PyFloat) : PyFloat := if a.ble b then a else b

/-! ### SQLGuard — `adaptive_query_engine._sanitize_sql` -/

/-- The fixed denylist of `_sanitize_sql` (adaptive_query_engine.py:226-229). -/
def dangerousPatterns : List String :=
  ["DROP", "DELETE", "INSERT", "UPDATE", "CREATE", "ALTER",
   "EXEC", "EXECUTE", "TRUNCATE", "MERGE", "CALL"]

/-- Does the upper-cased SQL contain a denylisted keyword?  This is the test
`pattern in sql_upper` of `_sanitize_sql`. -/
def sanitizeRejects (sql : String) : Bool :=
  dangerousPatterns.any (fun p => strHas (pyUpper sql) p)

/-- `_sanitize_sql` (adaptive_query_engine.py:221-236): raise `ValueError`
on the first denylisted keyword found, otherwise return the SQL unchanged. -/
def sanitize_sql (sql : String) : Except String String :=
  match dangerousPatterns.find? (fun p => strHas (pyUpper sql) p) with
  | some p => .error ("Dangerous SQL operation detected: " ++ p)
  | none => .ok sql

/-! ### Adaptive engine: generation, fallback and safe execution -/

/-- The response cleanup at the top of `_generate_adaptive_sql`
(adaptive_query_engine.py:205-209): strip, take the text between the first
pair of markdown fences, drop a leading `sql` tag. -/
def stripCodeFence (resp : String) : String :=
  let s := pyStrip resp
  let s := if strStarts s "```" then pyStrip (((pySplit s "```").get? 1).getD "") else s
  if strStarts s "sql" then pyStrip (String.mk (s.data.drop 3)) else s

/-- Column metadata as the services read it from the schema dict: only the
`type` and `description` keys are consulted by the embedded functions. -/
structure ColInfo where
  type : String := "text"
  description : String := ""
deriving DecidableEq, Repr

/-- A dataset schema: ordered column name / info pairs (Python dicts keep
insertion order). -/
abbrev Schema := List (String × ColInfo)

/-- The local fallback of `_generate_adaptive_sql`
(adaptive_query_engine.py:217-219): `SELECT {first 5 columns} FROM {table} LIMIT 10`. -/
def adaptiveFallbackSql (schema : Schema) (table : String) : String :=
  "SELECT " ++ pyJoin ", " ((schema.map Prod.fst).take 5) ++
    " FROM " ++ table ++ " LIMIT 10"

/-- `_generate_adaptive_sql` (adaptive_query_engine.py:171-219).  The LLM call
is abstracted as `llmResp` (`none` models a raised exception / timeout).  A
`ValueError` from `_sanitize_sql` is caught by the same `except` block and
answered with the local fallback. -/
def generate_adaptive_sql (llmResp : Option String) (schema : Schema) (table : String) : String :=
  match llmResp with
  | none => adaptiveFallbackSql schema table
  | some resp =>
    let cleaned := stripCodeFence resp
    match sanitize_sql cleaned with
    | .ok s => s
    | .error _ => adaptiveFallbackSql schema table

/-- The LIMIT safety measure of `_execute_query_safely`
(adaptive_query_engine.py:245-246): append ` LIMIT 1000` when the upper-cased
text has no `LIMIT` substring. -/
def addLimit (sql : String) : String :=
  if strHas (pyUpper sql) "LIMIT" then sql else sql ++ " LIMIT 1000"

/-- `_execute_query_safely` (adaptive_query_engine.py:238-258): apply
`addLimit`, hand the text to the execution collaborator, wrap a failure into
the `ValueError` message it re-raises.  `α` is the row type. -/
def execute_query_safely {α : Type} (sql : String)
    (collab : String → Except String (List α)) : Except String (List α) :=
  match collab (addLimit sql) with
  | .ok rows => .ok rows
  | .error e => .error ("Query execution failed: " ++ e)

/-- Row count of an execution outcome (`len(results)` on the Python side). -/
def rowCountOf {α : Type} : Except String (List α) → Nat
  | .ok rows => rows.length
  | .error _ => 0

/-! ### Intent classification — `enhanced_llm_service._analyze_question_intent` -/

/-- `self.business_patterns` (enhanced_llm_service.py:28-49), keyword tables
only, in dict insertion order. -/
def businessPatterns : List (String × List String) :=
  [("metrics", ["total", "sum", "average", "avg", "count", "how many", "number of"]),
   ("comparisons", ["compare", "vs", "versus", "against", "between"]),
   ("trends", ["trend", "over time", "monthly", "weekly", "daily", "growth", "change"]),
   ("rankings", ["top", "best", "worst", "highest", "lowest", "most", "least"]),
   ("filters", ["where", "when", "only", "except", "excluding", "including"])]

/-- The primary-intent loop of `_analyze_question_intent`
(enhanced_llm_service.py:453-463): start from `("exploration", 0.5)`; a
category replaces the current pick only when it has at least one keyword hit
and `min(hits/|keywords|, 1.0)` strictly exceeds the current confidence.
Float arithmetic is modelled exactly over `PyFloat`. -/
def analyzePrimaryIntent (question : String) : String × PyFloat :=
  let ql := pyLower question
  businessPatterns.foldl
    (fun acc p =>
      let hits := (p.2.filter (fun kw => strHas ql kw)).length
      if hits > 0 then
        let conf := pyMin ⟨(hits : Int), p.2.length⟩ ⟨1, 1⟩
        if acc.2.blt conf then (p.1, conf) else acc
      else acc)
    ("exploration", ⟨1, 2⟩)

/-! ### Entity extraction — `enhanced_llm_service._extract_business_entities` -/

/-- `business_term_mapping` (enhanced_llm_service.py:496-504). -/
def businessTermMapping : List (String × List String) :=
  [("customers", ["user", "customer", "client", "account"]),
   ("users", ["user", "customer", "client", "account"]),
   ("people", ["user", "customer", "person", "individual"]),
   ("sales", ["sale", "order", "transaction", "purchase"]),
   ("revenue", ["revenue", "amount", "value", "price", "cost"]),
   ("products", ["product", "item", "goods", "service"]),
   ("orders", ["order", "purchase", "transaction", "sale"])]

/-- `col_name.replace('_', ' ')`. -/
def underscoreToSpace (s : String) : String :=
  String.mk (s.data.map (fun c => if c = '_' then ' ' else c))

/-- `col_name.replace('_', '')`. -/
def dropUnderscore (s : String) : String :=
  String.mk (s.data.filter (fun c => c ≠ '_'))

/-- Column-reference extraction (enhanced_llm_service.py:506-529): a direct
match on any name variation or the description appends the column once (the
`for ... break` loop); otherwise each business term present in the question
whose pattern list hits the column name appends it (the inner `break` caps
each term at one append). -/
def extractColumns (question : String) (schema : Schema) : List String :=
  let ql := pyLower question
  schema.foldl
    (fun acc p =>
      let variations := [p.1, underscoreToSpace p.1, dropUnderscore p.1,
                         pyLower p.2.description]
      if variations.any (fun v => v ≠ "" && strHas ql (pyLower v)) then
        acc ++ [p.1]
      else
        let cl := pyLower p.1
        acc ++ businessTermMapping.filterMap
          (fun bt =>
            if strHas ql bt.1 && bt.2.any (fun pat => strHas cl pat) then some p.1
            else none))
    []

/-- `agg_patterns` (enhanced_llm_service.py:532-538). -/
def aggPatterns : List (String × List String) :=
  [("count", ["count", "how many", "number of", "total number"]),
   ("sum", ["sum", "total", "add up"]),
   ("avg", ["average", "avg", "mean"]),
   ("max", ["maximum", "max", "highest", "largest", "biggest"]),
   ("min", ["minimum", "min", "lowest", "smallest"])]

/-- Aggregation extraction (enhanced_llm_service.py:540-542): every matching
aggregation function is kept, upper-cased, in table order. -/
def extractAggregations (question : String) : List String :=
  let ql := pyLower question
  aggPatterns.filterMap
    (fun p => if p.2.any (fun pat => strHas ql pat) then some (pyUpper p.1) else none)

/-- The slice of `_analyze_question_intent`'s result dict that the embedded
downstream functions read: `primary_intent`, `confidence`, and the
`entities` lists `columns` / `aggregations` (the other entity lists and the
result-type / time-dimension / complexity fields are never consulted by the
functions verified here). -/
structure IntentAnalysis where
  primary_intent : String
  confidence : PyFloat
  columns : List String
  aggregations : List String
deriving DecidableEq, Repr

/-- `_analyze_question_intent` (enhanced_llm_service.py:448-481), restricted
to the fields of `IntentAnalysis`. -/
def analyzeQuestionIntent (question : String) (schema : Schema) : IntentAnalysis :=
  { primary_intent := (analyzePrimaryIntent question).1
    confidence := (analyzePrimaryIntent question).2
    columns := extractColumns question schema
    aggregations := extractAggregations question }

/-! ### Deterministic fallback — `enhanced_llm_service._generate_fallback_sql` -/

/-- `_generate_fallback_sql` (enhanced_llm_service.py:894-919).  The `schema`
parameter is part of the Python signature but never read in the body. -/
def generate_fallback_sql (question : String) (_schema : Schema) (table : String)
    (ia : IntentAnalysis) : String :=
  if ia.primary_intent = "metrics" && !ia.aggregations.isEmpty then
    match ia.columns with
    | c :: _ =>
      "SELECT " ++ ia.aggregations.headD "" ++ "(\"" ++ c ++ "\") as result FROM "
        ++ table ++ ";"
    | [] => "SELECT COUNT(*) as total_records FROM " ++ table ++ ";"
  else if ia.primary_intent = "rankings" && !ia.columns.isEmpty then
    let dir := if kwAny (pyLower question) ["top", "highest", "best"] then "DESC" else "ASC"
    "SELECT * FROM " ++ table ++ " ORDER BY \"" ++ ia.columns.headD "" ++ "\" "
      ++ dir ++ " LIMIT 10;"
  else
    "SELECT * FROM " ++ table ++ " LIMIT 10;"

/-! ### Generated-SQL cleanup — `enhanced_llm_service._clean_and_validate_sql`

The cleanup applies, in order: `strip`, removal of markdown fences
(`re.sub(r'```sql\n?', '')` then `re.sub(r'```\n?', '')`), a line filter that
keeps SQL-looking lines, `_apply_business_enhancements` (intent-driven LIMIT
plus an identifier-quoting regex substitution), and a final semicolon. -/

/-- Drop one leading newline if present (the optional trailing newline that
the fence-removal regexes consume, greedy). -/
def dropNl : List Char → List Char
  | '\n' :: r => r
  | r => r

/-- One pass of `re.sub(pat ++ optional newline, '')` for a literal pattern:
left-to-right, non-overlapping.  `fuel` bounds the recursion; each step
consumes at least one character, so `fuel = length` is exact. -/
def stripOccur (pat : List Char) : Nat → List Char → List Char
  | 0, l => l
  | _ + 1, [] => []
  | fuel + 1, c :: t =>
    if !pat.isEmpty && pat.isPrefixOf (c :: t) then
      stripOccur pat fuel (dropNl ((c :: t).drop pat.length))
    else
      c :: stripOccur pat fuel t

/-- `re.sub(r'```sql\n?', '', s)` followed by `re.sub(r'```\n?', '', s)`
(enhanced_llm_service.py:851-852). -/
def removeFences (s : List Char) : List Char :=
  let s := stripOccur "```sql".data s.length s
  stripOccur "```".data s.length s

/-- The keep-line prefixes of the line filter (enhanced_llm_service.py:860-862). -/
def sqlLineStarters : List String :=
  ["SELECT", "WITH", "FROM", "WHERE", "GROUP BY", "ORDER BY", "HAVING", "LIMIT",
   "JOIN", "LEFT JOIN", "RIGHT JOIN", "INNER JOIN", "AND", "OR"]

/-- The prose prefixes that stop a continuation line (enhanced_llm_service.py:863). -/
def proseLineStarters : List String := ["THE", "THIS", "HERE", "ABOVE", "NOTE"]

/-- The line filter (enhanced_llm_service.py:855-864): keep a stripped line if
its upper case starts with a SQL keyword, or if some line was already kept and
it does not start with a prose word. -/
def filterSqlLines (lines : List String) : List String :=
  lines.foldl
    (fun acc line =>
      let l := pyStrip line
      let u := pyUpper l
      if sqlLineStarters.any (fun st => strStarts u st) ||
         (!acc.isEmpty && !proseLineStarters.any (fun st => strStarts u st)) then
        acc ++ [l]
      else acc)
    []

/-! The identifier-quoting substitution of `_apply_business_enhancements`
(enhanced_llm_service.py:890):

    re.sub(r'\b([a-zA-Z_][a-zA-Z0-9_]*)\s*(?=\s*(,|\)|$|FROM|WHERE|GROUP|ORDER|HAVING))', r'"\1"', sql)

modelled with Python `re` semantics: leftmost, non-overlapping matches; the
greedy identifier backtracks character by character until the lookahead
succeeds; `$` (no MULTILINE) holds at the end of the string or before a final
newline. -/

/-- Regex word character `[a-zA-Z0-9_]` (also the `\b` class for ASCII text). -/
def isWordChar (c : Char) : Bool := c.isAlpha || c.isDigit || c = '_'

/-- The keyword alternatives of the lookahead. -/
def lookaheadKeywords : List (List Char) :=
  ["FROM".data, "WHERE".data, "GROUP".data, "ORDER".data, "HAVING".data]

/-- Lookahead `\s*(,|\)|$|FROM|WHERE|GROUP|ORDER|HAVING)` at `r`.  The
alternatives other than `$` begin with a non-space character, so they can only
match after all leading whitespace; `$` holds exactly when everything left is
whitespace ending the string (possibly via the position before a final
newline, which the whitespace skip also reaches). -/
def lookaheadOk (r : List Char) : Bool :=
  let r2 := r.dropWhile isPyWs
  match r2 with
  | [] => true
  | ',' :: _ => true
  | ')' :: _ => true
  | _ => lookaheadKeywords.any (fun kw => kw.isPrefixOf r2)

/-- Matched length of the greedy, backtracking identifier group.  `w` is the
maximal word-character run starting at the match position, `r` the remainder.
The full run matches when the lookahead succeeds after it; a shorter cut `i`
(tried longest first) leaves a word character adjacent, so `\s*` is empty and
only a keyword alternative can satisfy the lookahead. -/
def identMatchLen (w r : List Char) : Option Nat :=
  if lookaheadOk r then some w.length
  else
    ((List.range w.length).reverse.filter
      (fun i => decide (0 < i) &&
        lookaheadKeywords.any (fun kw => kw.isPrefixOf (w.drop i ++ r)))).head?

/-- The scanning loop of the substitution.  `prevWord` records whether the
character before the current position is a word character (for `\b`); on a
match the identifier and the whitespace consumed by `\s*` are replaced by the
quoted identifier and scanning resumes after them.  `fuel` bounds the
recursion; every step consumes at least one character. -/
def quoteScan : Nat → Bool → List Char → List Char
  | 0, _, l => l
  | _ + 1, _, [] => []
  | fuel + 1, prevWord, c :: t =>
    if !prevWord && (c.isAlpha || c = '_') then
      let w := (c :: t).takeWhile isWordChar
      let r := (c :: t).dropWhile isWordChar
      match identMatchLen w r with
      | some i =>
        let ws := r.takeWhile isPyWs
        let after := if i = w.length then r.dropWhile isPyWs else w.drop i ++ r
        let prevNext := !(i = w.length && !ws.isEmpty)
        '"' :: (w.take i ++ ['"']) ++ quoteScan fuel prevNext after
      | none => c :: quoteScan fuel (isWordChar c) t
    else
      c :: quoteScan fuel (isWordChar c) t

/-- The whole identifier-quoting substitution. -/
def quoteIdentifiers (s : String) : String :=
  String.mk (quoteScan s.data.length false s.data)

/-- `_apply_business_enhancements` (enhanced_llm_service.py:877-892): for
rankings/exploration intents with no LIMIT substring, append `LIMIT 10` /
`LIMIT 100`; then quote identifiers. -/
def apply_business_enhancements (sql : String) (ia : IntentAnalysis) : String :=
  let sql :=
    if (ia.primary_intent = "rankings" || ia.primary_intent = "exploration") &&
        !strHas (pyUpper sql) "LIMIT" then
      if ia.primary_intent = "rankings" then rstripSemi sql ++ " LIMIT 10;"
      else rstripSemi sql ++ " LIMIT 100;"
    else sql
  quoteIdentifiers sql

/-- Final step of `_clean_and_validate_sql`: ensure a trailing semicolon
(tested on the right-stripped text, appended to the unstripped one). -/
def ensureSemicolon (s : String) : String :=
  if (pyRstrip s).data.getLast? = some ';' then s else s ++ ";"

/-- `_clean_and_validate_sql` (enhanced_llm_service.py:844-875). -/
def clean_and_validate_sql (sql : String) (ia : IntentAnalysis) : String :=
  let s := removeFences (pyStrip sql).data
  let lines := pySplit (String.mk s) "\n"
  let sqlLines := filterSqlLines lines
  let cleaned := if sqlLines.isEmpty then String.mk s
                 else pyJoin "\n" sqlLines
  ensureSemicolon (apply_business_enhancements cleaned ia)

/-- `_generate_business_sql` (enhanced_llm_service.py:667-700): on a
successful LLM call, clean and enhance the returned text — with no denylist
check; on a raised generation error, fall back to `_generate_fallback_sql`.
This is the SQL that `process_query_with_updates` passes to execution. -/
def generate_business_sql (llmResp : Option String) (question : String)
    (schema : Schema) (table : String) : String :=
  let ia := analyzeQuestionIntent question schema
  match llmResp with
  | some raw => clean_and_validate_sql raw ia
  | none => generate_fallback_sql question schema table ia

/-! ### Scalar values and result normalization -/

/-- A Python scalar as the services receive it from the database driver.
`pdatetime` carries the string its `isoformat()` returns; `pfloatable` is an
object that is not an `int`/`float`/`str`/`bool` but has `__float__` (e.g.
`Decimal`), carrying its float value and its `str()`; `pother` is any other
object, carrying its `str()`. -/
inductive PyValue
  | pint (n : Int)
  | pfloat (q : PyFloat)
  | pstr (s : String)
  | pbool (b : Bool)
  | pnone
  | pdatetime (iso : String)
  | pfloatable (q : PyFloat) (s : String)
  | pother (s : String)
deriving DecidableEq, Repr

/-- `hasattr(value, '__float__')`: true for `int`, `float`, `bool` and
float-convertible objects. -/
def hasFloatAttr : PyValue → Bool
  | .pint _ => true
  | .pfloat _ => true
  | .pbool _ => true
  | .pfloatable _ _ => true
  | _ => false

/-- `float(value)` for the values `hasFloatAttr` accepts. -/
def pyToFloat : PyValue → PyFloat
  | .pint n => ⟨n, 1⟩
  | .pfloat q => q
  | .pbool b => ⟨if b then 1 else 0, 1⟩
  | .pfloatable q _ => q
  | _ => ⟨0, 1⟩

/-- The per-value conversion of `query_engine.execute_query`
(query_engine.py:44-52): `isoformat()` for datetimes, identity for
`int`/`float`/`str`/`bool` and `None`, `str(value)` for everything else. -/
def normalizeValue : PyValue → PyValue
  | .pdatetime iso => .pstr iso
  | .pint n => .pint n
  | .pfloat q => .pfloat q
  | .pstr s => .pstr s
  | .pbool b => .pbool b
  | .pnone => .pnone
  | .pfloatable _ s => .pstr s
  | .pother s => .pstr s

/-- The per-value conversion of `enhanced_query_processor._execute_sql_query`
(enhanced_query_processor.py:319-325): `isoformat()` for datetimes,
`float(value)` for anything with `__float__`, identity otherwise. -/
def enhancedNormalizeValue : PyValue → PyValue
  | .pdatetime iso => .pstr iso
  | v => if hasFloatAttr v then .pfloat (pyToFloat v) else v

/-- Membership in the portable value model of the spec:
Integer / Float / String (including ISO-8601 timestamp strings) / Bool / Null. -/
def isNormalizedScalar : PyValue → Bool
  | .pint _ => true
  | .pfloat _ => true
  | .pstr _ => true
  | .pbool _ => true
  | .pnone => true
  | _ => false

/-- The structured result both executors return: column names, converted rows,
`row_count = len(data)`.  Neither executor computes a `truncated` flag. -/
structure QueryResult where
  columns : List String
  data : List (List PyValue)
  row_count : Nat
deriving DecidableEq, Repr

/-- `query_engine.execute_query` (query_engine.py:18-65).  The collaborator
outcome (`rows` with their column names, or a raised error) is the argument. -/
def execute_query (collab : Except String (List String × List (List PyValue))) :
    Except String QueryResult :=
  match collab with
  | .error e => .error ("Query execution failed: " ++ e)
  | .ok (cols, rows) =>
    if rows.isEmpty then .ok ⟨[], [], 0⟩
    else .ok ⟨cols, rows.map (fun r => r.map normalizeValue), rows.length⟩

/-- `enhanced_query_processor._execute_sql_query`
(enhanced_query_processor.py:294-336): same shape, but with the
`enhancedNormalizeValue` conversion and a `Database query failed` wrapper. -/
def execute_sql_query (sql : String)
    (collab : String → Except String (List String × List (List PyValue))) :
    Except String QueryResult :=
  match collab sql with
  | .error e => .error ("Database query failed: " ++ e)
  | .ok (cols, rows) =>
    if rows.isEmpty then .ok ⟨[], [], 0⟩
    else .ok ⟨cols, rows.map (fun r => r.map enhancedNormalizeValue), rows.length⟩

/-! ### Visualization — `visualization_engine` -/

/-- The fields of `_analyze_data_characteristics`' result that
`_select_chart_type` reads (`value_distributions` and `data_patterns` are
computed by the Python function but never consulted by the selector). -/
structure DataAnalysis where
  numeric_columns : List String
  categorical_columns : List String
  date_columns : List String
  boolean_columns : List String
  has_time_series : Bool
  cardinality : List (String × Nat)
deriving DecidableEq, Repr

/-- `schema.get(col, {}).get('type', 'unknown')`. -/
def schemaType (schema : Schema) (col : String) : String :=
  ((schema.find? (fun p => p.1 = col)).map (fun p => p.2.type)).getD "unknown"

/-- pandas `df[col].nunique()`: distinct non-null values. -/
def nunique (vals : List PyValue) : Nat :=
  ((vals.filter (fun v => v ≠ PyValue.pnone)).dedup).length

/-- A result `DataFrame`: ordered columns with their value lists. -/
abbrev DataFrame := List (String × List PyValue)

/-- `_analyze_data_characteristics` (visualization_engine.py:79-126),
restricted to the fields of `DataAnalysis`. -/
def analyze_data_characteristics (df : DataFrame) (schema : Schema) : DataAnalysis :=
  df.foldl
    (fun a p =>
      let ctype := schemaType schema p.1
      let u := nunique p.2
      let a := { a with cardinality := a.cardinality ++ [(p.1, u)] }
      if ["number", "currency", "percentage"].contains ctype then
        { a with numeric_columns := a.numeric_columns ++ [p.1] }
      else if ["category", "text"].contains ctype then
        if u ≤ 20 then { a with categorical_columns := a.categorical_columns ++ [p.1] }
        else a
      else if ctype = "date" then
        { a with date_columns := a.date_columns ++ [p.1], has_time_series := true }
      else if ctype = "boolean" then
        { a with boolean_columns := a.boolean_columns ++ [p.1] }
      else a)
    ⟨[], [], [], [], false, []⟩

/-- `analysis["cardinality"][col]`. -/
def cardOf (card : List (String × Nat)) (col : String) : Nat :=
  ((card.find? (fun p => p.1 = col)).map Prod.snd).getD 0

/-- Keyword table of priority 1 of `_select_chart_type` (KPI questions). -/
def kpiKeywords : List String := ["how many", "count", "total", "number of", "kpi"]

/-- Trend keywords of `_select_chart_type`. -/
def trendKeywords : List String := ["trend", "over time", "timeline", "historical"]

/-- Distribution keywords of `_select_chart_type`. -/
def distributionKeywords : List String := ["distribution", "spread", "histogram"]

/-- Comparison keywords of `_select_chart_type`. -/
def compareKeywords : List String := ["compare", "comparison", "vs", "versus"]

/-- Proportion keywords of `_select_chart_type`. -/
def proportionKeywords : List String := ["percentage", "proportion", "share", "breakdown"]

/-- Correlation keywords of `_select_chart_type`. -/
def correlationKeywords : List String := ["correlation", "relationship", "scatter"]

/-- `_select_chart_type` (visualization_engine.py:128-202): the first-match
decision chain over question keywords, intent type, result shape and the data
analysis. -/
def select_chart_type (analysis : DataAnalysis) (question intent_type : String)
    (row_count col_count : Nat) : String :=
  let ql := pyLower question
  let numericCols := analysis.numeric_columns.length
  let categoricalCols := analysis.categorical_columns.length
  if kwAny ql kpiKeywords && strHas ql "active" then "kpi"
  else if kwAny ql kpiKeywords && decide (row_count ≤ 10) then "kpi"
  else if kwAny ql trendKeywords && analysis.has_time_series then "line_chart"
  else if kwAny ql distributionKeywords && decide (1 ≤ numericCols) then "histogram"
  else if kwAny ql compareKeywords && decide (1 ≤ categoricalCols) then "bar_chart"
  else if kwAny ql proportionKeywords && decide (1 ≤ categoricalCols) then "pie_chart"
  else if kwAny ql correlationKeywords && decide (2 ≤ numericCols) then "scatter_plot"
  else if intent_type = "count" && decide (1 ≤ categoricalCols) then "bar_chart"
  else if intent_type = "aggregation" && decide (row_count = 1) then "metric_card"
  else if decide (row_count = 1) && decide (col_count = 1) then "metric_card"
  else if analysis.has_time_series && decide (1 ≤ numericCols) then "line_chart"
  else if decide (1 ≤ categoricalCols) && decide (1 ≤ numericCols) &&
      decide (((analysis.categorical_columns.map (cardOf analysis.cardinality)).min?).getD 0 ≤ 10) then
    "bar_chart"
  else if decide (1 ≤ categoricalCols) && decide (row_count ≤ 10) then "pie_chart"
  else if decide (2 ≤ numericCols) then "scatter_plot"
  else if decide (numericCols = 1) then "histogram"
  else if decide (row_count ≤ 100) then "data_table"
  else "metric_card"

/-! ### Pipeline responses and progress events -/

/-- The user-visible response fields the error-handling claims are about:
`success` is `none` when the returned dict has no `success` key at all. -/
structure PipelineResponse where
  success : Option Bool
  error : Option String
deriving DecidableEq, Repr

/-- `adaptive_query_engine.process_natural_language_query`
(adaptive_query_engine.py:28-74), projected onto `PipelineResponse`.
`ctx` is the `_get_dataset_context` outcome (schema and table name, or
`none` when the dataset is missing); `llmResp` the SQL-generation collaborator
outcome; `collab` the execution collaborator.  Intent analysis, answer
generation, visualization and history storage all catch their own exceptions,
so the only raise reaching the outer handler is the execution failure. -/
def process_natural_language_query (ctx : Option (Schema × String))
    (llmResp : Option String)
    (collab : String → Except String (List (List PyValue))) : PipelineResponse :=
  match ctx with
  | none => { success := none, error := some "Dataset not found" }
  | some (schema, table) =>
    let sql := generate_adaptive_sql llmResp schema table
    match execute_query_safely sql collab with
    | .error e => { success := some false, error := some e }
    | .ok _ => { success := some true, error := none }

/-- Which collaborator calls of one `process_query_with_updates` run succeed.
The pure in-process steps (intent analysis, SQL generation with its internal
fallback) cannot raise; the steps that can are the dataset / data-source
lookups, SQL execution, answer generation and visualization generation. -/
structure RunOutcome where
  conversational : Bool
  datasetOk : Bool
  dataSourceOk : Bool
  execOk : Bool
  answerOk : Bool
  vizOk : Bool
deriving DecidableEq, Repr

/-- `enhanced_query_processor.process_query_with_updates`
(enhanced_query_processor.py:100-292), projected onto the list of emitted
progress events `(status, progress)` and the returned `PipelineResponse`.
A conversational message short-circuits with a single `completed` event;
otherwise the stage events are emitted in order and any raise jumps to the
`except` handler, which emits `("failed", 0)` and returns a
`success := false` object with the exception message. -/
def process_query_with_updates (o : RunOutcome) :
    List (String × Nat) × PipelineResponse :=
  if o.conversational then
    ([("completed", 100)], { success := some true, error := none })
  else
    let ev0 := [("analyzing", 10)]
    if !o.datasetOk then
      (ev0 ++ [("failed", 0)], { success := some false, error := some "Dataset not found" })
    else if !o.dataSourceOk then
      (ev0 ++ [("failed", 0)], { success := some false, error := some "Data source not found" })
    else
      let ev2 := ev0 ++ [("generating_sql", 30), ("executing", 50)]
      if !o.execOk then
        (ev2 ++ [("failed", 0)],
         { success := some false, error := some "Database query failed" })
      else
        let ev3 := ev2 ++ [("analyzing_results", 70)]
        if !o.answerOk then
          (ev3 ++ [("failed", 0)],
           { success := some false, error := some "Answer generation failed" })
        else
          let ev4 := ev3 ++ [("creating_visualization", 85)]
          if !o.vizOk then
            (ev4 ++ [("failed", 0)],
             { success := some false, error := some "Visualization failed" })
          else
            (ev4 ++ [("completed", 100)], { success := some true, error := none })

/-- The fixed per-stage percent constants of the progress events. -/
def stagePercent : String → Nat
  | "analyzing" => 10
  | "generating_sql" => 30
  | "executing" => 50
  | "analyzing_results" => 70
  | "creating_visualization" => 85
  | "completed" => 100
  | _ => 0

deriving instance DecidableEq for Except

/-- Non-decreasing test for a percent sequence (the order in which progress
events are emitted within one run). -/
def nonDecreasing : List Nat → Bool
  | [] => true
  | [_] => true
  | a :: b :: t => decide (a ≤ b) && nonDecreasing (b :: t)

/-! ### Helper lemmas -/

/-- A substring of the right part is a substring of the whole. -/
theorem hasSub_append_right (l m p : List Char) (h : hasSub m p = true) :
    hasSub (l ++ m) p = true := by
  induction l with
  | nil => simpa using h
  | cons c t ih => simp [hasSub, ih]

/-- `String.data` distributes over append. -/
theorem strData_append (s t : String) : (s ++ t).data = s.data ++ t.data := by
  cases s; cases t; rfl

/-- An accepted-or-not candidate always carries a `LIMIT` substring after
`addLimit`. -/
theorem addLimit_hasLimit (sql : String) :
    strHas (pyUpper (addLimit sql)) "LIMIT" = true := by
  unfold addLimit
  by_cases h : strHas (pyUpper sql) "LIMIT"
  · simp [h]
  · simp only [h, if_false, Bool.false_eq_true]
    unfold strHas pyUpper
    rw [strData_append, List.map_append]
    exact hasSub_append_right _ _ _ (by decide)

/-- `sanitizeRejects` names the same test as a rejecting `sanitize_sql`. -/
theorem sanitize_sql_error_of_rejects (sql : String)
    (h : sanitizeRejects sql = true) : ∃ e, sanitize_sql sql = .error e := by
  unfold sanitizeRejects at h
  rw [List.any_eq_true] at h
  obtain ⟨p, hp, hph⟩ := h
  unfold sanitize_sql
  rcases hfind : dangerousPatterns.find? (fun q => strHas (pyUpper sql) q) with _ | q
  · exact absurd (List.find?_eq_none.mp hfind p hp) (by simp [hph])
  · exact ⟨_, rfl⟩

/-! ### Claim C1 -/

/-- Claim C1, counterexample.  The candidate `SELECT * FROM t; DROP TABLE t;`
contains the denylisted `DROP`, yet on the enhanced-processor pipeline path
(`analyze_business_question` → `_generate_business_sql` →
`_clean_and_validate_sql` → `_execute_sql_query`) no denylist check runs: the
cleaned text still contains `DROP`, reaches the execution collaborator, and an
ExecutionResult is produced from it. -/
theorem C1_counterexample :
    sanitizeRejects "SELECT * FROM t; DROP TABLE t;" = true ∧
    generate_business_sql (some "SELECT * FROM t; DROP TABLE t;") "show me records"
        [("a", {}), ("b", {})] "t" = "SELECT * FROM t; DROP TABLE t LIMIT 100;" ∧
    strHas (pyUpper (generate_business_sql (some "SELECT * FROM t; DROP TABLE t;")
        "show me records" [("a", {}), ("b", {})] "t")) "DROP" = true ∧
    execute_sql_query (generate_business_sql (some "SELECT * FROM t; DROP TABLE t;")
        "show me records" [("a", {}), ("b", {})] "t")
        (fun _ => .ok (["a"], [[PyValue.pint 1]])) =
      .ok ⟨["a"], [[PyValue.pfloat ⟨1, 1⟩]], 1⟩ := by
  refine ⟨by decide, by decide, by decide, by decide⟩

/-- Claim C1, amended: on the adaptive-engine path every candidate whose
cleaned text contains a denylisted keyword is rejected by `_sanitize_sql` and
replaced by the engine's schema-derived fallback, so the candidate itself
never reaches execution; the enhanced-processor path, however, applies no
denylist check at all (see the counterexample). -/
theorem C1_amended (resp : String) (schema : Schema) (table : String)
    (h : sanitizeRejects (stripCodeFence resp) = true) :
    generate_adaptive_sql (some resp) schema table = adaptiveFallbackSql schema table := by
  obtain ⟨e, he⟩ := sanitize_sql_error_of_rejects _ h
  simp [generate_adaptive_sql, he]

/-- Claim C1, witness for the amended theorem at a concrete rejected candidate. -/
theorem C1_witness :
    generate_adaptive_sql (some "DROP TABLE users;") [("a", {})] "t" =
      adaptiveFallbackSql [("a", {})] "t" :=
  C1_amended "DROP TABLE users;" [("a", {})] "t" (by decide)

/-! ### Claim C2 -/

/-- Claim C2, counterexample.  For `How many active users are there?` over a
schema with a category column `status`, the classifier does **not** return
`metrics`: the only metrics keyword hit is `how many`, giving confidence
`1/7`, which does not strictly exceed the exploration default `0.5`, so the
claimed conjunction fails (even though `aggregations = [COUNT]` holds). -/
theorem C2_counterexample :
    ¬ ((analyzeQuestionIntent "How many active users are there?"
          [("status", { type := "category" })]).primary_intent = "metrics" ∧
       (analyzeQuestionIntent "How many active users are there?"
          [("status", { type := "category" })]).aggregations = ["COUNT"]) := by
  decide

/-- Claim C2, amended: on that question the classifier keeps the default
`exploration` with confidence `0.5` (a category is selected only when its
keyword-hit ratio strictly exceeds `0.5`, and `metrics` only reaches `1/7`),
while the entity extractor does return `aggregations = ["COUNT"]`. -/
theorem C2_amended :
    (analyzeQuestionIntent "How many active users are there?"
        [("status", { type := "category" })]).primary_intent = "exploration" ∧
    (analyzeQuestionIntent "How many active users are there?"
        [("status", { type := "category" })]).confidence = ⟨1, 2⟩ ∧
    (analyzeQuestionIntent "How many active users are there?"
        [("status", { type := "category" })]).aggregations = ["COUNT"] := by
  refine ⟨by decide, by decide, by decide⟩

/-! ### Claim C3 -/

/-- Claim C3, counterexample.  With generation failing, the fallback for
`What's the average price?` over `price : currency` is **not** the metrics
template: the question is classified `exploration` (the single `average` hit
gives `1/7 ≤ 0.5`), so `_generate_fallback_sql` takes its last branch. -/
theorem C3_counterexample :
    generate_business_sql none "What\x27s the average price?"
        [("price", { type := "currency" })] "sales" ≠
      "SELECT AVG(\"price\") AS result FROM sales" := by
  decide

/-- Claim C3, amended: the entity extractor does find `AVG` and `price`, but
the intent stays `exploration`, so the generation-failure fallback is the
exploration default `SELECT * FROM sales LIMIT 10;` (the metrics template
`SELECT AVG("price") as result FROM sales;`, with lower-case `as` and a
trailing semicolon, would be produced only under a `metrics` intent). -/
theorem C3_amended :
    (analyzeQuestionIntent "What\x27s the average price?"
        [("price", { type := "currency" })]).primary_intent = "exploration" ∧
    (analyzeQuestionIntent "What\x27s the average price?"
        [("price", { type := "currency" })]).aggregations = ["AVG"] ∧
    (analyzeQuestionIntent "What\x27s the average price?"
        [("price", { type := "currency" })]).columns = ["price"] ∧
    generate_business_sql none "What\x27s the average price?"
        [("price", { type := "currency" })] "sales" = "SELECT * FROM sales LIMIT 10;" := by
  refine ⟨by decide, by decide, by decide, by decide⟩

/-! ### Claim C4 -/

/-- Claim C4, counterexample.  When the adaptive engine's guard rejects the
candidate `SELECT * FROM t; DROP TABLE t;` (schema columns `a`, `b`, table
`t`), the engine does **not** fall back to the claimed rankings/exploration
default `SELECT * FROM t LIMIT 10;`. -/
theorem C4_counterexample :
    generate_adaptive_sql (some "SELECT * FROM t; DROP TABLE t;")
        [("a", {}), ("b", {})] "t" ≠ "SELECT * FROM t LIMIT 10;" := by
  decide

/-- Claim C4, amended: the guard does raise on the candidate (pattern `DROP`),
but the `except` handler of `_generate_adaptive_sql` answers with the engine's
own schema template `SELECT {first 5 columns} FROM {table} LIMIT 10` — here
`SELECT a, b FROM t LIMIT 10` — not with `_generate_fallback_sql`'s
`SELECT * FROM t LIMIT 10;`; that fallback does pass the guard. -/
theorem C4_amended :
    sanitize_sql (stripCodeFence "SELECT * FROM t; DROP TABLE t;") =
      .error "Dangerous SQL operation detected: DROP" ∧
    generate_adaptive_sql (some "SELECT * FROM t; DROP TABLE t;")
        [("a", {}), ("b", {})] "t" = "SELECT a, b FROM t LIMIT 10" ∧
    sanitizeRejects "SELECT a, b FROM t LIMIT 10" = false := by
  refine ⟨by decide, by decide, by decide⟩

/-! ### Claim C5 -/

/-- Claim C5, counterexample.  `_execute_query_safely` applies no row cap
after execution: when the candidate already contains a `LIMIT` token (here
`LIMIT 2000`) nothing is appended, and a collaborator answer of 1001 rows is
returned as 1001 rows — `rowCount ≤ 1000` fails, and no `truncated` flag is
computed anywhere. -/
theorem C5_counterexample :
    rowCountOf (execute_query_safely "SELECT * FROM t LIMIT 2000"
        (fun _ => Except.ok (List.replicate 1001 ([] : List PyValue)))) = 1001 ∧
    ¬ rowCountOf (execute_query_safely "SELECT * FROM t LIMIT 2000"
        (fun _ => Except.ok (List.replicate 1001 ([] : List PyValue)))) ≤ 1000 := by
  have e : execute_query_safely "SELECT * FROM t LIMIT 2000"
      (fun _ => Except.ok (List.replicate 1001 ([] : List PyValue))) =
      Except.ok (List.replicate 1001 ([] : List PyValue)) := rfl
  have hlen : rowCountOf (Except.ok (List.replicate 1001 ([] : List PyValue))) = 1001 := by
    show (List.replicate 1001 ([] : List PyValue)).length = 1001
    rw [List.length_replicate]
  constructor
  · rw [e, hlen]
  · rw [e, hlen]
    decide

/-- Claim C5, amended: the result's row count always equals the raw number of
rows the execution collaborator returns; the only cap is the textual
` LIMIT 1000` handed to the collaborator when the SQL has no `LIMIT`
substring, and no `truncated` flag exists in the result. -/
theorem C5_amended (sql : String)
    (collab : String → Except String (List (List PyValue)))
    (rows : List (List PyValue)) (h : collab (addLimit sql) = .ok rows) :
    execute_query_safely sql collab = .ok rows ∧
    rowCountOf (execute_query_safely sql collab) = rows.length := by
  unfold execute_query_safely
  rw [h]
  exact ⟨rfl, rfl⟩

/-- Claim C5, witness for the amended theorem at a concrete collaborator. -/
theorem C5_witness :
    execute_query_safely "SELECT 1"
        (fun _ => Except.ok [[PyValue.pint 7]]) = Except.ok [[PyValue.pint 7]] ∧
    rowCountOf (execute_query_safely "SELECT 1"
        (fun _ => Except.ok [[PyValue.pint 7]])) = 1 :=
  C5_amended "SELECT 1" (fun _ => Except.ok [[PyValue.pint 7]]) [[PyValue.pint 7]] rfl

/-! ### Claim C6 -/

/-- Claim C6, confirmed: every candidate the SQLGuard accepts reaches the
execution collaborator (through `_execute_query_safely`) with a `LIMIT`
substring in its upper-cased text, and when the accepted text has no such
token the default ` LIMIT 1000` is appended.  (`LIMIT` presence is the code's
own case-insensitive substring test; spec §9 documents LIMIT-by-string-append
as a known weakness.) -/
theorem C6_confirmed (sql : String) (_hok : sanitize_sql sql = .ok sql) :
    strHas (pyUpper (addLimit sql)) "LIMIT" = true ∧
    (strHas (pyUpper sql) "LIMIT" = false →
      addLimit sql = sql ++ " LIMIT 1000") := by
  refine ⟨addLimit_hasLimit sql, fun h => ?_⟩
  simp [addLimit, h]

/-- Claim C6, witness at a concrete accepted candidate without a LIMIT. -/
theorem C6_witness :
    strHas (pyUpper (addLimit "SELECT * FROM t")) "LIMIT" = true ∧
    (strHas (pyUpper "SELECT * FROM t") "LIMIT" = false →
      addLimit "SELECT * FROM t" = "SELECT * FROM t" ++ " LIMIT 1000") :=
  C6_confirmed "SELECT * FROM t" (by decide)

/-! ### Claim C7 -/

/-- Claim C7, counterexample.  A one-row one-column result whose single column
is date-typed, asked with a question containing `trend`, is routed to
`line_chart` by `_select_chart_type`: the question-keyword rules run before
the shape rule, so the claim's "regardless of the question text and schema"
fails. -/
theorem C7_counterexample :
    select_chart_type
        (analyze_data_characteristics [("day", [PyValue.pstr "2024-01-01"])]
          [("day", { type := "date" })]) "trend of value" "general" 1 1 = "line_chart" ∧
    ¬ (select_chart_type
          (analyze_data_characteristics [("day", [PyValue.pstr "2024-01-01"])]
            [("day", { type := "date" })]) "trend of value" "general" 1 1 = "metric" ∨
       select_chart_type
          (analyze_data_characteristics [("day", [PyValue.pstr "2024-01-01"])]
            [("day", { type := "date" })]) "trend of value" "general" 1 1 = "metric_card" ∨
       select_chart_type
          (analyze_data_characteristics [("day", [PyValue.pstr "2024-01-01"])]
            [("day", { type := "date" })]) "trend of value" "general" 1 1 = "kpi") := by
  refine ⟨by decide, by decide⟩

/-- Claim C7, amended: for a 1-row 1-column result the selector returns
`kpi` or `metric_card` provided no earlier rule fires — the question contains
no trend / distribution / comparison / proportion / correlation keyword and
the intent type is not `count`.  (KPI-keyword questions are fine: with one row
they land on `kpi`.) -/
theorem C7_amended (analysis : DataAnalysis) (q intent : String)
    (h1 : kwAny (pyLower q) trendKeywords = false)
    (h2 : kwAny (pyLower q) distributionKeywords = false)
    (h3 : kwAny (pyLower q) compareKeywords = false)
    (h4 : kwAny (pyLower q) proportionKeywords = false)
    (h5 : kwAny (pyLower q) correlationKeywords = false)
    (h6 : intent ≠ "count") :
    select_chart_type analysis q intent 1 1 = "kpi" ∨
    select_chart_type analysis q intent 1 1 = "metric_card" := by
  by_cases hk : kwAny (pyLower q) kpiKeywords <;>
  by_cases ha : strHas (pyLower q) "active" <;>
  by_cases hg : intent = "aggregation" <;>
  simp [select_chart_type, h1, h2, h3, h4, h5, h6, hk, ha, hg]

/-- Claim C7, witness for the amended theorem: a counting question over a
single numeric value lands on a KPI/metric card. -/
theorem C7_witness :
    select_chart_type
        (analyze_data_characteristics [("cnt", [PyValue.pint 5])]
          [("cnt", { type := "number" })]) "how many records" "general" 1 1 = "kpi" ∨
    select_chart_type
        (analyze_data_characteristics [("cnt", [PyValue.pint 5])]
          [("cnt", { type := "number" })]) "how many records" "general" 1 1 = "metric_card" :=
  C7_amended _ "how many records" "general" (by decide) (by decide) (by decide)
    (by decide) (by decide) (by decide)

/-! ### Claim C8 -/

/-- Claim C8, counterexample.  The adaptive engine's dataset-not-found path
returns only `{'error': 'Dataset not found'}` — a user-visible failure object
with no `success: false` marker. -/
theorem C8_counterexample :
    (process_natural_language_query none none
        (fun _ => Except.ok ([] : List (List PyValue)))).error = some "Dataset not found" ∧
    (process_natural_language_query none none
        (fun _ => Except.ok ([] : List (List PyValue)))).success ≠ some false := by
  refine ⟨rfl, by decide⟩

/-- Claim C8, amended: no failure is ever reported as `success: true`, and
every failure carries an error message; all failure paths return
`success: false` except the adaptive engine's dataset-not-found path, whose
response object has an error message but no `success` key at all. -/
theorem C8_amended :
    (∀ (ctx : Option (Schema × String)) (llmResp : Option String)
        (collab : String → Except String (List (List PyValue))),
      ((process_natural_language_query ctx llmResp collab).success = some true ∧
        (process_natural_language_query ctx llmResp collab).error = none) ∨
      ((process_natural_language_query ctx llmResp collab).success = some false ∧
        (process_natural_language_query ctx llmResp collab).error.isSome = true) ∨
      ((process_natural_language_query ctx llmResp collab).success = none ∧
        (process_natural_language_query ctx llmResp collab).error = some "Dataset not found" ∧
        ctx = none)) ∧
    (∀ o : RunOutcome,
      ((process_query_with_updates o).2.success = some true ∧
        (process_query_with_updates o).2.error = none) ∨
      ((process_query_with_updates o).2.success = some false ∧
        (process_query_with_updates o).2.error.isSome = true)) := by
  constructor
  · intro ctx llmResp collab
    match ctx with
    | none => exact Or.inr (Or.inr ⟨rfl, rfl, rfl⟩)
    | some (schema, table) =>
      rcases hx : execute_query_safely (generate_adaptive_sql llmResp schema table) collab with e | rows
      · refine Or.inr (Or.inl ?_)
        simp [process_natural_language_query, hx]
      · refine Or.inl ?_
        simp [process_natural_language_query, hx]
  · intro o
    rcases o with ⟨a, b, c, d, e, f⟩
    cases a <;> cases b <;> cases c <;> cases d <;> cases e <;> cases f <;> decide

/-! ### Claim C9 -/

/-- Claim C9, counterexample.  A run whose dataset lookup fails emits
`analyzing (10%)` and then `failed (0%)`: the percent sequence `[10, 0]` of
that run is not non-decreasing. -/
theorem C9_counterexample :
    (process_query_with_updates ⟨false, false, true, true, true, true⟩).1 =
      [("analyzing", 10), ("failed", 0)] ∧
    nonDecreasing ((process_query_with_updates
        ⟨false, false, true, true, true, true⟩).1.map Prod.snd) = false := by
  refine ⟨by decide, by decide⟩

/-- Claim C9, amended: every emitted event carries its stage's fixed percent
constant (analyzing 10, generating_sql 30, executing 50, analyzing_results 70,
creating_visualization 85, completed 100, failed 0); the percents are
non-decreasing up to the final event of the run, and the final event is either
`completed` at 100 or `failed` at 0 — a `failed` event after the first stage
lowers the percent. -/
theorem C9_amended (a b c d e f : Bool) :
    ((process_query_with_updates ⟨a, b, c, d, e, f⟩).1.map Prod.snd =
      (process_query_with_updates ⟨a, b, c, d, e, f⟩).1.map (fun ev => stagePercent ev.1)) ∧
    nonDecreasing (((process_query_with_updates ⟨a, b, c, d, e, f⟩).1.map Prod.snd).dropLast) = true ∧
    (((process_query_with_updates ⟨a, b, c, d, e, f⟩).1.getLast?).map Prod.snd = some 100 ∨
     ((process_query_with_updates ⟨a, b, c, d, e, f⟩).1.getLast?).map Prod.snd = some 0) := by
  cases a <;> cases b <;> cases c <;> cases d <;> cases e <;> cases f <;> decide

/-! ### Claim C10 -/

/-- Claim C10, counterexample.  The enhanced processor's executor converts
only values with `isoformat` or `__float__`; a database value of any other
unrecognized type (modelled by `pother`) is passed through unchanged instead
of being coerced to String, so the normalized result can contain a value
outside the portable model. -/
theorem C10_counterexample :
    enhancedNormalizeValue (PyValue.pother "uuid-object") = PyValue.pother "uuid-object" ∧
    isNormalizedScalar (enhancedNormalizeValue (PyValue.pother "uuid-object")) = false := by
  refine ⟨rfl, rfl⟩

/-- Claim C10, amended: the claim holds for `query_engine.execute_query`'s
normalizer — it is total and every converted scalar is Integer, Float, String
(including ISO-8601 timestamp strings), Bool or Null, with unrecognized types
coerced via `str(value)`; the enhanced processor's executor, by contrast,
passes values lacking `isoformat`/`__float__` through unchanged (see the
counterexample). -/
theorem C10_amended (v : PyValue) : isNormalizedScalar (normalizeValue v) = true := by
  cases v <;> rfl
